import Mathlib

set_option linter.unusedVariables false
set_option maxRecDepth 4000
set_option linter.unnecessarySeqFocus false

/-!
Verification of the coordinate-recognition pipeline and the affine
calibration solver of the WutheringWaves-Navigator repository
(src/ocr_engine.py and src/main_app.py).

Modelling conventions:
* Python floats are modelled as exact rationals (every IEEE double is a
  rational number, and every numeric literal appearing in the modelled code
  is exactly representable).
* Strings flowing through the pipeline are modelled as `List Char`.
* The YOLO classifier, Qt signal plumbing and file IO are outside the
  modelled core; diagnostic strings emitted by the worker do not influence
  any modelled control flow and are omitted.
-/

/-- Python str.isspace restricted to the ASCII whitespace characters (the
only ones the modelled alphabet and the spec scenarios can produce). -/
def isPySpace (c : Char) : Bool :=
  c == ' ' || c == '\t' || c == '\n' || c == '\r' || c == '\x0b' || c == '\x0c'

/-- Python str.rstrip(): drop trailing whitespace. -/
def pyRstrip (s : List Char) : List Char :=
  (s.reverse.dropWhile isPySpace).reverse

/-- Python str.strip(): drop leading and trailing whitespace. -/
def pyStrip (s : List Char) : List Char :=
  pyRstrip (s.dropWhile isPySpace)

/-- ASCII decimal digit test (the regex class `d` and Python str.isdigit on
the modelled alphabet). -/
def isDigitChar (c : Char) : Bool := 48 ≤ c.toNat && c.toNat ≤ 57

/-- Numeric value of a decimal digit string, most significant digit first. -/
def digitsToNat (l : List Char) : Nat :=
  l.foldl (fun n c => n * 10 + (c.toNat - 48)) 0

/-- Backtracking alternatives for the regex fragment `d{1,7}` (a greedy run
of one to seven decimal digits) at the front of `s`: the pairs (capture,
remaining input) in the order a backtracking engine tries them, longest
capture first. -/
def digitSplits (s : List Char) : List (List Char × List Char) :=
  let run := (s.takeWhile isDigitChar).length
  let maxK := min run 7
  (List.range maxK).map (fun j => (s.take (maxK - j), s.drop (maxK - j)))

/-- Backtracking alternatives for the regex group `(-?d{1,7})` at the front
of `s`: the signed integer value of each capture together with the remaining
input, in backtracking order (the optional sign is consumed greedily; when
the sign is present the sign-less alternative contributes nothing because a
digit run cannot start at the `-`). -/
def signedGroupAlts (s : List Char) : List (Int × List Char) :=
  match s with
  | '-' :: rest => (digitSplits rest).map (fun p => (-(digitsToNat p.1 : Int), p.2))
  | _ => (digitSplits s).map (fun p => ((digitsToNat p.1 : Int), p.2))

/-- Backtracking match of the anchored coordinate pattern
`(-?d{1,7}),(-?d{1,7}),(-?d{1,7})` against a prefix of `s` (the regex used
both by the selector and by the parser), returning the three captured
integers of the first alternative that succeeds, in PCRE leftmost/greedy
order.  Trailing input after the match is tolerated. -/
def matchTriple (s : List Char) : Option (Int × Int × Int) :=
  (signedGroupAlts s).findSome? (fun g1 =>
    match g1.2 with
    | ',' :: r1 =>
      (signedGroupAlts r1).findSome? (fun g2 =>
        match g2.2 with
        | ',' :: r2 =>
          (signedGroupAlts r2).findSome? (fun g3 => some (g1.1, g2.1, g3.1))
        | _ => none)
    | _ => none)

/-- Does `s` begin with a match of the timestamp pattern `20[23]d-`. -/
def isYearDashAt (s : List Char) : Bool :=
  match s with
  | '2' :: '0' :: c3 :: c4 :: '-' :: _ => (c3 == '2' || c3 == '3') && isDigitChar c4
  | _ => false

/-- Index of the leftmost match of `20[23]d-` in `s` (re.search). -/
def findYearDash : List Char → Option Nat
  | [] => none
  | c :: rest =>
    if isYearDashAt (c :: rest) then some 0 else (findYearDash rest).map (· + 1)

/-- Index of the leftmost run of two or more consecutive whitespace
characters in `s` (the split point of re.split with pattern `s{2,}`). -/
def findDoubleSpace : List Char → Option Nat
  | c1 :: c2 :: rest =>
    if isPySpace c1 && isPySpace c2 then some 0
    else (findDoubleSpace (c2 :: rest)).map (· + 1)
  | _ => none

/-- OCRWorker._remove_timestamp_from_coord_string: truncate at the leftmost
`20[23]d-` timestamp and right-strip; else keep only the text before the
first run of two or more whitespace characters, stripped; else drop a bare
trailing `20[23]d` year token preceded by whitespace (together with the
whole whitespace run, as re.sub removes the full greedy match), stripped;
else return the string unchanged. -/
def remove_timestamp_from_coord_string (s : List Char) : List Char :=
  match findYearDash s with
  | some i => pyRstrip (s.take i)
  | none =>
    match findDoubleSpace s with
    | some i => pyStrip (s.take i)
    | none =>
      match s.reverse with
      | c4 :: c3 :: '0' :: '2' :: rest =>
        if (c3 == '2' || c3 == '3') && isDigitChar c4 then
          match rest with
          | w :: _ =>
            if isPySpace w then pyStrip ((rest.dropWhile isPySpace).reverse) else s
          | [] => s
        else s
      | _ => s

/-- Bounding box in image pixels. -/
structure BBox where
  x1 : ℚ
  y1 : ℚ
  x2 : ℚ
  y2 : ℚ
deriving DecidableEq

/-- One classifier detection: class id, bounding box, confidence. -/
structure Detection where
  cls : Int
  bbox : BBox
  confidence : ℚ
deriving DecidableEq

/-- The static class-name table `['0'..'9', ',', ':', '-']`
(OCRWorker._CLASS_NAMES_STATIC, the hardcoded fallback alphabet). -/
def CLASS_NAMES : List Char :=
  ['0', '1', '2', '3', '4', '5', '6', '7', '8', '9', ',', ':', '-']

/-- OCRWorker._class_id_to_char_static: decode a class id, `none` when the
id is out of range of the table. -/
def class_id_to_char_static (i : Int) : Option Char :=
  if 0 ≤ i then CLASS_NAMES.get? i.toNat else none

/-- Left-to-right order on detections: the sort key `bbox.x1`. -/
def detLE (a b : Detection) : Prop := a.bbox.x1 ≤ b.bbox.x1

instance : DecidableRel detLE := fun a b =>
  inferInstanceAs (Decidable (a.bbox.x1 ≤ b.bbox.x1))

instance : IsTotal Detection detLE := ⟨fun a b => le_total a.bbox.x1 b.bbox.x1⟩

instance : IsTrans Detection detLE := ⟨fun _ _ _ h1 h2 => le_trans h1 h2⟩

/-- Python list.sort(key=bbox x1): a stable sort by the left edge. -/
def sortByX1 (dets : List Detection) : List Detection :=
  List.insertionSort detLE dets

/-- The concatenated decoded character string of a detection list after
sorting left to right ("".join(char or "") over the sorted detections). -/
def concatChars (dets : List Detection) : List Char :=
  (sortByX1 dets).filterMap (fun d => class_id_to_char_static d.cls)

/-- Numeric-extraction tail of OCRWorker._parse_and_validate_from_detections:
strip the cleaned string, anchor-match the coordinate pattern, parse the
three signed integers and validate each against the ±9999999 range. -/
def parseCoordString (s : List Char) : Bool × Option (Int × Int × Int) :=
  match matchTriple (pyStrip s) with
  | some (x, y, z) =>
    if |x| ≤ 9999999 ∧ |y| ≤ 9999999 ∧ |z| ≤ 9999999 then (true, some (x, y, z))
    else (false, none)
  | none => (false, none)

/-- OCRWorker._parse_and_validate_from_detections: empty detection lists
fail; otherwise sort, concatenate, remove a trailing timestamp and extract
the validated coordinate triple. -/
def parse_and_validate_from_detections (dets : List Detection) :
    Bool × Option (Int × Int × Int) :=
  if dets.isEmpty then (false, none)
  else parseCoordString (remove_timestamp_from_coord_string (concatChars dets))

/-- A word-like cluster of glyphs: the decoded text together with the
member detections, left to right. -/
structure Cluster where
  word : List Char
  detections : List Detection
deriving DecidableEq

/-- Is a decoded character counted in the average-width statistic of the
clusterer (a digit, '-' or ','). -/
def widthChar (c : Char) : Bool := isDigitChar c || c == '-' || c == ','

/-- Total width and count over the width-statistic detections (the first
loop of cluster_detections_to_rich_clusters; widths that are not positive
are skipped). -/
def widthStats (dets : List Detection) : ℚ × Nat :=
  dets.foldl (fun (acc : ℚ × Nat) d =>
    match class_id_to_char_static d.cls with
    | some c =>
      if widthChar c then
        if d.bbox.x2 - d.bbox.x1 > (0 : ℚ) then
          (acc.1 + (d.bbox.x2 - d.bbox.x1), acc.2 + 1)
        else acc
      else acc
    | none => acc) (0, 0)

/-- Horizontal gaps between consecutive detections of the sorted list
(current x1 minus previous x2, over all detections). -/
def gapsOf : List Detection → List ℚ
  | a :: b :: rest => (b.bbox.x1 - a.bbox.x2) :: gapsOf (b :: rest)
  | _ => []

/-- Ascending sort of the gap list (Python sorted). -/
def sortQ (l : List ℚ) : List ℚ := List.insertionSort (· ≤ ·) l

/-- The separation threshold of the clusterer: 1.8 times the average
character width when there are no gaps; otherwise the larger of that and,
when at least three gaps exist, twice the gap at index int(0.75 * n) of the
sorted gap list. -/
def separationThreshold (avg : ℚ) (gaps : List ℚ) : ℚ :=
  if gaps.isEmpty then avg * (9 / 5)
  else
    let t1 := avg * (9 / 5)
    let t2 :=
      if gaps.length > 2 then (sortQ gaps).getD (3 * gaps.length / 4) 0 * 2
      else t1
    max t1 t2

/-- Python current_word.replace(',','').replace('-','').isdigit(): true when
the comma/hyphen-stripped word is nonempty and all digits. -/
def strippedIsDigit (w : List Char) : Bool :=
  let t := w.filter (fun c => !(c == ',' || c == '-'))
  !t.isEmpty && t.all isDigitChar

/-- The left-to-right accumulation walk of cluster_detections_to_rich_clusters.
State: remaining detections, current word, its detections and the right edge
x2 of the last accepted character (None before the first one).  Characters
the table cannot decode are skipped without updating the right edge. -/
def walkClusters (avg sep : ℚ) :
    List Detection → List Char → List Detection → Option ℚ → List Cluster
  | [], curW, curD, _ => if curW.isEmpty then [] else [⟨curW, curD⟩]
  | d :: rest, curW, curD, lastX2 =>
    match class_id_to_char_static d.cls with
    | none => walkClusters avg sep rest curW curD lastX2
    | some c =>
      match lastX2 with
      | none => walkClusters avg sep rest [c] [d] (some d.bbox.x2)
      | some lx2 =>
        let gap := d.bbox.x1 - lx2
        if gap > sep ∨ gap > avg * (5 / 2) ∨
            (strippedIsDigit curW = true ∧ curW.length ≥ 4 ∧
              isDigitChar c = true ∧ gap > avg * 2) then
          (if curW.isEmpty then id else (⟨curW, curD⟩ :: ·))
            (walkClusters avg sep rest [c] [d] (some d.bbox.x2))
        else walkClusters avg sep rest (curW ++ [c]) (curD ++ [d]) (some d.bbox.x2)

/-- cluster_detections_to_rich_clusters: sort the detections left to right,
compute the adaptive width/gap thresholds and group the decodable characters
into word-like clusters. -/
def cluster_detections_to_rich_clusters (dets : List Detection) : List Cluster :=
  if dets.isEmpty then []
  else
    let sorted := sortByX1 dets
    let stats := widthStats sorted
    if stats.2 = 0 then []
    else
      let avg := stats.1 / (stats.2 : ℚ)
      let gaps := gapsOf sorted
      walkClusters avg (separationThreshold avg gaps) sorted [] [] none

/-- The cleaned text the selector matches against: the cluster word with
all spaces removed and then all tab characters removed. -/
def cleanWT (w : List Char) : List Char := w.filter (fun c => !(c == ' ' || c == '\t'))

/-- Length key the source applies to the incumbent best cluster: only
spaces are removed (best_cluster['word'].replace(" ", "")). -/
def cleanS (w : List Char) : List Char := w.filter (fun c => !(c == ' '))

/-- Loop body of find_best_coordinate_cluster: keep the first cluster whose
cleaned word matches the coordinate pattern, and replace the incumbent
whenever a later match is strictly longer under the source's length keys
(candidate length with spaces and tabs removed, incumbent length with only
spaces removed). -/
def find_best_step (best : Option Cluster) (cl : Cluster) : Option Cluster :=
  let cleaned := cleanWT cl.word
  if (matchTriple cleaned).isSome then
    match best with
    | none => some cl
    | some b => if cleaned.length > (cleanS b.word).length then some cl else best
  else best

/-- find_best_coordinate_cluster: scan the clusters in order with the loop
body above.  The diagnostic detail list of the source does not influence the
selection and is not modelled. -/
def find_best_coordinate_cluster (clusters : List Cluster) : Option Cluster :=
  clusters.foldl find_best_step none

/-- Modelled from the spec's words, for comparison with the source selector:
among the clusters whose whitespace-stripped text matches the coordinate
grammar at the start, select the one with the longest stripped text,
resolving ties in favour of the first encountered (loop body). -/
def spec_select_step (best : Option Cluster) (cl : Cluster) : Option Cluster :=
  let cleaned := cleanWT cl.word
  if (matchTriple cleaned).isSome then
    match best with
    | none => some cl
    | some b => if cleaned.length > (cleanWT b.word).length then some cl else best
  else best

/-- Modelled from the spec's words, for comparison with the source selector:
the longest-stripped-match, first-on-ties selection. -/
def spec_select_cluster (clusters : List Cluster) : Option Cluster :=
  clusters.foldl spec_select_step none

/-- RecognitionState. -/
inductive RState where
  | LOCKED
  | LOST
  | SEARCHING
deriving DecidableEq

/-- The mutable tracking fields of OCRWorker together with its tracking
configuration parameters. -/
structure WorkerState where
  recognition_state : RState
  last_valid_coord : Option (Int × Int × Int)
  last_valid_detections : Option (List Detection)
  consecutive_failures : Nat
  max_speed_threshold : Int
  z_axis_threshold : Int
  lost_threshold_frames : Nat
deriving DecidableEq

/-- Exact-real reading of `math.sqrt s > m` for a nonnegative radicand `s`:
true outright for negative `m` (a square root is never below a negative
number), otherwise compare the squares.  For every radicand the pipeline can
produce (sums of two squares of differences of parsed coordinates, below
2^53) the IEEE square root is faithfully rounded, so the float comparison of
the source agrees with this exact comparison. -/
def sqrtGT (s m : Int) : Bool := if m < 0 then true else decide (s > m * m)

/-- OCRWorker._is_teleport_jump: no previously accepted coordinate means no
jump; otherwise flag a z difference beyond z_axis_threshold or a horizontal
displacement beyond max_speed_threshold. -/
def is_teleport_jump (st : WorkerState) (c : Int × Int × Int) : Bool :=
  match st.last_valid_coord with
  | none => false
  | some p =>
    let dx := c.1 - p.1
    let dy := c.2.1 - p.2.1
    let dz := c.2.2 - p.2.2
    if |dz| > st.z_axis_threshold then true
    else if sqrtGT (dx * dx + dy * dy) st.max_speed_threshold then true
    else false

/-- OCRWorker._handle_locked_state: parse the best cluster and accept only
when the coordinate is not a teleport jump; on acceptance refresh the
template detections. -/
def handle_locked_state (st : WorkerState) (best : Option Cluster) :
    WorkerState × Bool × Option (Int × Int × Int) :=
  match best with
  | some cl =>
    match parse_and_validate_from_detections cl.detections with
    | (true, some c) =>
      if is_teleport_jump st c then (st, false, none)
      else ({ st with last_valid_detections := some cl.detections }, true, some c)
    | _ => (st, false, none)
  | none => (st, false, none)

/-- OCRWorker._handle_searching_state (shared by SEARCHING and LOST): any
successfully parsed best cluster is accepted, with no jump check. -/
def handle_searching_state (st : WorkerState) (best : Option Cluster) :
    WorkerState × Bool × Option (Int × Int × Int) :=
  match best with
  | some cl =>
    match parse_and_validate_from_detections cl.detections with
    | (true, some c) => ({ st with last_valid_detections := some cl.detections }, true, some c)
    | _ => (st, false, none)
  | none => (st, false, none)

/-- OCRWorker._transition_to_locked: set LOCKED and emit the state-change
signal, but only when the state actually changes. -/
def transition_to_locked (st : WorkerState) : WorkerState × List RState :=
  if st.recognition_state ≠ RState.LOCKED then
    ({ st with recognition_state := RState.LOCKED }, [RState.LOCKED])
  else (st, [])

/-- OCRWorker._transition_to_lost: set LOST and emit the state-change
signal, but only when the state actually changes. -/
def transition_to_lost (st : WorkerState) : WorkerState × List RState :=
  if st.recognition_state ≠ RState.LOST then
    ({ st with recognition_state := RState.LOST }, [RState.LOST])
  else (st, [])

/-- Result of one tracking tick: the updated worker fields, the tick's
success flag and coordinate, and the state-change signals emitted. -/
structure TickResult where
  state : WorkerState
  success : Bool
  coords : Option (Int × Int × Int)
  emitted : List RState
deriving DecidableEq

/-- The state dispatch of _apply_tracking_algorithm: LOCKED uses the jump
checked handler, SEARCHING and LOST the unconditional one. -/
def run_state_handler (st : WorkerState) (best : Option Cluster) :
    WorkerState × Bool × Option (Int × Int × Int) :=
  match st.recognition_state with
  | RState.LOCKED => handle_locked_state st best
  | RState.SEARCHING => handle_searching_state st best
  | RState.LOST => handle_searching_state st best

/-- The final bookkeeping of _apply_tracking_algorithm: on an accepted
coordinate reset the failure counter, store the coordinate and enter LOCKED
(emitting the change only when not already LOCKED); otherwise count the
failure and fall to LOST when LOCKED and the counter reaches the
threshold. -/
def finalize_tick (st1 : WorkerState) (succ : Bool)
    (cds : Option (Int × Int × Int)) : TickResult :=
  match succ, cds with
  | true, some c =>
    let st2 := { st1 with consecutive_failures := 0, last_valid_coord := some c }
    let p := if st2.recognition_state ≠ RState.LOCKED then transition_to_locked st2 else (st2, [])
    ⟨p.1, true, some c, p.2⟩
  | s, cds' =>
    let st2 := { st1 with consecutive_failures := st1.consecutive_failures + 1 }
    let p :=
      if st2.recognition_state = RState.LOCKED ∧
          st2.consecutive_failures ≥ st2.lost_threshold_frames then
        transition_to_lost st2
      else (st2, [])
    ⟨p.1, s, cds', p.2⟩

/-- OCRWorker._apply_tracking_algorithm: cluster and select, dispatch on the
recognition state, then perform the final bookkeeping.  The debug strings of
the source are pure diagnostics and are omitted. -/
def apply_tracking_algorithm (st : WorkerState) (raw : List Detection) : TickResult :=
  let h := run_state_handler st
    (find_best_coordinate_cluster (cluster_detections_to_rich_clusters raw))
  finalize_tick h.1 h.2.1 h.2.2

/-- A calibration sample pairing game coordinates with geographic ones. -/
structure CalibrationPoint where
  x : ℚ
  y : ℚ
  lat : ℚ
  lon : ℚ
deriving DecidableEq

/-- The six-parameter affine transform (lat = a x + b y + c,
lon = d x + e y + f). -/
structure TransformMatrix where
  a : ℚ
  b : ℚ
  c : ℚ
  d : ℚ
  e : ℚ
  f : ℚ
deriving DecidableEq

/-- Latitude component of CalibrationSystem.transform. -/
def transform_lat (m : TransformMatrix) (gx gy : ℚ) : ℚ := m.a * gx + m.b * gy + m.c

/-- Longitude component of CalibrationSystem.transform. -/
def transform_lon (m : TransformMatrix) (gx gy : ℚ) : ℚ := m.d * gx + m.e * gy + m.f

/-- Squared residual of the 2n x 6 design system built by
calculate_transform_matrix, evaluated at a coefficient vector. -/
def SSE (pts : List CalibrationPoint) (m : TransformMatrix) : ℚ :=
  (pts.map (fun p =>
    (transform_lat m p.x p.y - p.lat) ^ 2 + (transform_lon m p.x p.y - p.lon) ^ 2)).sum

/-- Contract of np.linalg.lstsq on the design system: the returned
coefficients minimise the squared residual over all coefficient vectors. -/
def IsLstsqSol (pts : List CalibrationPoint) (m : TransformMatrix) : Prop :=
  ∀ m', SSE pts m ≤ SSE pts m'

/-- Outcomes of CalibrationSystem.calculate_transform_matrix:
the ValueError for fewer than two points, the ValueError raised when
np.linalg.lstsq signals LinAlgError, or a fitted matrix. -/
inductive CalibResult where
  | validationError
  | computationError
  | ok (m : TransformMatrix)
deriving DecidableEq

/-- Relational model of CalibrationSystem.calculate_transform_matrix: fewer
than two points raise the validation error; otherwise np.linalg.lstsq is
modelled by its documented contract and returns some least-squares
minimiser.  In exact arithmetic a finite-dimensional least-squares problem
always has a minimiser, so the LinAlgError-driven computation error (SVD
non-convergence) cannot arise. -/
def calculate_transform_matrix_spec (pts : List CalibrationPoint) (r : CalibResult) : Prop :=
  if pts.length < 2 then r = CalibResult.validationError
  else ∃ m, r = CalibResult.ok m ∧ IsLstsqSol pts m

/-- Determinant of the 3x3 interpolation matrix
[[x1,y1,1],[x2,y2,1],[x3,y3,1]]; the three game points are non-collinear
exactly when it is nonzero. -/
def det3 (p1 p2 p3 : CalibrationPoint) : ℚ :=
  p1.x * (p2.y - p3.y) - p1.y * (p2.x - p3.x) + (p2.x * p3.y - p3.x * p2.y)

/-- Cramer solution of the three-point interpolation system for one geo
component, taking the component values v1 v2 v3 at the three game points. -/
def cramer3 (p1 p2 p3 : CalibrationPoint) (v1 v2 v3 : ℚ) : ℚ × ℚ × ℚ :=
  let dd := det3 p1 p2 p3
  ((v1 * (p2.y - p3.y) - p1.y * (v2 - v3) + (v2 * p3.y - v3 * p2.y)) / dd,
   (p1.x * (v2 - v3) - v1 * (p2.x - p3.x) + (p2.x * v3 - p3.x * v2)) / dd,
   (p1.x * (p2.y * v3 - p3.y * v2) - p1.y * (p2.x * v3 - p3.x * v2) +
     v1 * (p2.x * p3.y - p3.x * p2.y)) / dd)

/-- The exact affine interpolant through three non-collinear calibration
points, assembled from the two Cramer solutions. -/
def exactTransform (p1 p2 p3 : CalibrationPoint) : TransformMatrix :=
  let l := cramer3 p1 p2 p3 p1.lat p2.lat p3.lat
  let o := cramer3 p1 p2 p3 p1.lon p2.lon p3.lon
  ⟨l.1, l.2.1, l.2.2, o.1, o.2.1, o.2.2⟩

/-- An explicit least-squares minimiser for one geo component over two
calibration points: interpolate exactly when the game points differ in x or
in y, otherwise predict the average of the two target values. -/
def lineSol (x1 y1 v1 x2 y2 v2 : ℚ) : ℚ × ℚ × ℚ :=
  if x1 ≠ x2 then ((v1 - v2) / (x1 - x2), 0, v1 - (v1 - v2) / (x1 - x2) * x1)
  else if y1 ≠ y2 then (0, (v1 - v2) / (y1 - y2), v1 - (v1 - v2) / (y1 - y2) * y1)
  else (0, 0, (v1 + v2) / 2)

/-- An explicit least-squares minimiser over two calibration points,
combining the latitude and longitude component solutions. -/
def twoPointSol (p1 p2 : CalibrationPoint) : TransformMatrix :=
  let l := lineSol p1.x p1.y p1.lat p2.x p2.y p2.lat
  let o := lineSol p1.x p1.y p1.lon p2.x p2.y p2.lon
  ⟨l.1, l.2.1, l.2.2, o.1, o.2.1, o.2.2⟩

/-- The Python idiom `area_id or 'default'`: a missing or empty area id
turns into "default". -/
def areaOrDefault (area_id : Option String) : String :=
  match area_id with
  | some a => if a = "" then "default" else a
  | none => "default"

/-- CalibrationDataManager.get_map_key: online maps get a trailing area
component defaulting to "default"; every other mode yields a local key with
no area component. -/
def get_map_key (mode provider_or_map_name : String) (area_id : Option String) : String :=
  if mode = "online" then
    "online_" ++ provider_or_map_name ++ "_" ++ areaOrDefault area_id
  else "local_" ++ provider_or_map_name

/-- A synthetic detection used by the concrete scenarios: a glyph of class
`cls` whose box spans horizontally from `x1` to `x1 + 8`. -/
def mkDet (cls : Int) (x1 : ℚ) : Detection := ⟨cls, ⟨x1, 0, x1 + 8, 10⟩, 9 / 10⟩

/-- A detection list decoding to "2000,0,0": eight glyphs twelve pixels
apart, which the clusterer groups into a single cluster. -/
def D2000 : List Detection :=
  [mkDet 2 0, mkDet 0 12, mkDet 0 24, mkDet 0 36, mkDet 10 48,
   mkDet 0 60, mkDet 10 72, mkDet 0 84]

/-- The cluster the pipeline builds from `D2000`. -/
def cl2000 : Cluster := ⟨"2000,0,0".toList, D2000⟩

/-- A LOCKED worker that last accepted (0,0,0), with the default thresholds
max_speed_threshold 1000, z_axis_threshold 50, lost_threshold_frames 5. -/
def st0 : WorkerState := ⟨RState.LOCKED, some (0, 0, 0), none, 0, 1000, 50, 5⟩

/-- The same worker in the LOST state. -/
def stLost : WorkerState := ⟨RState.LOST, some (0, 0, 0), none, 5, 1000, 50, 5⟩

/-- The same worker in the SEARCHING state. -/
def stSearch : WorkerState := ⟨RState.SEARCHING, some (0, 0, 0), none, 0, 1000, 50, 5⟩

/-- One tracking tick on an empty detection list (a guaranteed acceptance
failure). -/
def failTick (s : WorkerState) : WorkerState := (apply_tracking_algorithm s []).state

/-- A cluster whose word ends in a tab: its selector-cleaned text "1,2,3"
matches the grammar. -/
def clTab : Cluster := ⟨"1,2,3\t".toList, []⟩

/-- A tab-free cluster with the longer cleaned text "11,2,3". -/
def clLong : Cluster := ⟨"11,2,3".toList, []⟩

/-- Two calibration points with distinct game positions; their 4 x 6 design
matrix has rank at most four, hence is singular. -/
def calibP2 : List CalibrationPoint := [⟨0, 0, 0, 0⟩, ⟨1, 1, 1, 1⟩]

/-- One exact interpolant of `calibP2` (lat = x, lon = y). -/
def mA : TransformMatrix := ⟨1, 0, 0, 0, 1, 0⟩

/-- A second, different exact interpolant of `calibP2` (lat = y, lon = x). -/
def mB : TransformMatrix := ⟨0, 1, 0, 1, 0, 0⟩

/-- Three non-collinear calibration points realising the identity map. -/
def q1 : CalibrationPoint := ⟨0, 0, 0, 0⟩

/-- Second of the three non-collinear identity calibration points. -/
def q2 : CalibrationPoint := ⟨1, 0, 1, 0⟩

/-- Third of the three non-collinear identity calibration points. -/
def q3 : CalibrationPoint := ⟨0, 1, 0, 1⟩

/-- The identity transform, an exact least-squares fit of q1 q2 q3. -/
def mId : TransformMatrix := ⟨1, 0, 0, 0, 1, 0⟩

/-- Decoding relation between a cluster's text and its detections: position
by position, the character is the one decoded from the detection's class
id. -/
def DecodesTo (w : List Char) (ds : List Detection) : Prop :=
  List.Forall₂ (fun c d => class_id_to_char_static d.cls = some c) w ds

/-- Any value produced by List.findSome? comes from some list element. -/
theorem findSome?_exists_of_eq_some {α β : Type} {f : α → Option β} {l : List α} {b : β}
    (h : l.findSome? f = some b) : ∃ a ∈ l, f a = some b := by
  induction l with
  | nil => simp at h
  | cons a as ih =>
    rw [List.findSome?_cons] at h
    cases hfa : f a with
    | some b' =>
      rw [hfa] at h
      exact ⟨a, List.mem_cons_self a as, hfa.trans h⟩
    | none =>
      rw [hfa] at h
      obtain ⟨x, hx, hfx⟩ := ih h
      exact ⟨x, List.mem_cons_of_mem a hx, hfx⟩

/-- Every element of a prefix of the digit run is a digit. -/
theorem take_all_digit : ∀ (s : List Char) (k : Nat),
    k ≤ (s.takeWhile isDigitChar).length → ∀ c ∈ s.take k, isDigitChar c = true := by
  intro s
  induction s with
  | nil => simp
  | cons a t ih =>
    intro k hk c hc
    cases k with
    | zero => simp at hc
    | succ k' =>
      by_cases hpa : isDigitChar a = true
      · rw [List.takeWhile_cons_of_pos hpa] at hk
        simp only [List.length_cons, Nat.succ_le_succ_iff] at hk
        simp only [List.take_succ_cons, List.mem_cons] at hc
        rcases hc with rfl | hc
        · exact hpa
        · exact ih k' hk c hc
      · rw [List.takeWhile_cons_of_neg hpa] at hk
        simp at hk

/-- Folding digits starting from accumulator a stays below (a+1)·10^len. -/
theorem digits_foldl_lt : ∀ (l : List Char) (a : Nat), (∀ c ∈ l, isDigitChar c = true) →
    l.foldl (fun n c => n * 10 + (c.toNat - 48)) a < (a + 1) * 10 ^ l.length := by
  intro l
  induction l with
  | nil => intro a _; simp [Nat.lt_succ_self a]
  | cons c t ih =>
    intro a h
    have hd : c.toNat - 48 ≤ 9 := by
      have hc := h c (List.mem_cons_self c t)
      simp only [isDigitChar, Bool.and_eq_true, decide_eq_true_eq] at hc
      omega
    have hrec := ih (a * 10 + (c.toNat - 48)) (fun x hx => h x (List.mem_cons_of_mem c hx))
    simp only [List.foldl_cons, List.length_cons]
    calc t.foldl (fun n c => n * 10 + (c.toNat - 48)) (a * 10 + (c.toNat - 48))
        < (a * 10 + (c.toNat - 48) + 1) * 10 ^ t.length := hrec
      _ ≤ ((a + 1) * 10) * 10 ^ t.length := by
          apply Nat.mul_le_mul_right
          omega
      _ = (a + 1) * 10 ^ (t.length + 1) := by ring

/-- A digit string of length at most seven denotes at most 9999999. -/
theorem digitsToNat_le (l : List Char) (hlen : l.length ≤ 7)
    (hdig : ∀ c ∈ l, isDigitChar c = true) : digitsToNat l ≤ 9999999 := by
  have h := digits_foldl_lt l 0 hdig
  have h10 : (10 : Nat) ^ l.length ≤ 10 ^ 7 := Nat.pow_le_pow_right (by omega) hlen
  simp only [digitsToNat]
  omega

/-- Captures produced by digitSplits are digit strings of length at most 7. -/
theorem digitSplits_mem {s : List Char} {p : List Char × List Char}
    (h : p ∈ digitSplits s) :
    p.1.length ≤ 7 ∧ ∀ c ∈ p.1, isDigitChar c = true := by
  simp only [digitSplits, List.mem_map, List.mem_range] at h
  obtain ⟨j, hj, rfl⟩ := h
  have hmin : min ((s.takeWhile isDigitChar).length) 7 ≤ 7 := Nat.min_le_right _ _
  constructor
  · simp only [List.length_take]
    omega
  · intro c hc
    apply take_all_digit s (min ((s.takeWhile isDigitChar).length) 7 - j) _ c hc
    have := Nat.min_le_left ((s.takeWhile isDigitChar).length) 7
    omega

/-- Every alternative of the signed group has magnitude at most 9999999. -/
theorem signedGroupAlts_bound {s : List Char} {g : Int × List Char}
    (h : g ∈ signedGroupAlts s) : |g.1| ≤ 9999999 := by
  have key : ∀ (t : List Char) (p : List Char × List Char), p ∈ digitSplits t →
      (digitsToNat p.1 : Int) ≤ 9999999 := by
    intro t p hp
    obtain ⟨hl, hd⟩ := digitSplits_mem hp
    exact_mod_cast digitsToNat_le p.1 hl hd
  unfold signedGroupAlts at h
  split at h
  · simp only [List.mem_map] at h
    obtain ⟨p, hp, rfl⟩ := h
    have := key _ p hp
    simp only [abs_neg, abs_of_nonneg (Int.ofNat_nonneg _)]
    exact this
  · simp only [List.mem_map] at h
    obtain ⟨p, hp, rfl⟩ := h
    have := key _ p hp
    simpa [abs_of_nonneg (Int.ofNat_nonneg _)] using this

/-- Every coordinate triple the pattern can capture is within ±9999999. -/
theorem matchTriple_bound {s : List Char} {x y z : Int}
    (h : matchTriple s = some (x, y, z)) :
    |x| ≤ 9999999 ∧ |y| ≤ 9999999 ∧ |z| ≤ 9999999 := by
  unfold matchTriple at h
  obtain ⟨g1, hg1mem, hg1⟩ := findSome?_exists_of_eq_some h
  split at hg1
  case _ r1 heq1 =>
    obtain ⟨g2, hg2mem, hg2⟩ := findSome?_exists_of_eq_some hg1
    split at hg2
    case _ r2 heq2 =>
      obtain ⟨g3, hg3mem, hg3⟩ := findSome?_exists_of_eq_some hg2
      simp only [Option.some.injEq, Prod.mk.injEq] at hg3
      obtain ⟨rfl, rfl, rfl⟩ := hg3
      exact ⟨signedGroupAlts_bound hg1mem, signedGroupAlts_bound hg2mem,
        signedGroupAlts_bound hg3mem⟩
    case _ => simp at hg2
  case _ => simp at hg1

/-- C1: for every detection list whose concatenated, timestamp-stripped
character string matches the anchored coordinate pattern with all three
parsed integers of magnitude at most 9999999, the parser returns success
with exactly those integers; on a non-match, on an out-of-range component
and on an empty detection list it returns failure with no coordinate (the
embedding is total, so no exception can escape). -/
theorem C1_parse_and_validate (dets : List Detection) :
    (∀ x y z,
      matchTriple (pyStrip (remove_timestamp_from_coord_string (concatChars dets)))
          = some (x, y, z) →
      |x| ≤ 9999999 → |y| ≤ 9999999 → |z| ≤ 9999999 →
      parse_and_validate_from_detections dets = (true, some (x, y, z))) ∧
    (matchTriple (pyStrip (remove_timestamp_from_coord_string (concatChars dets))) = none →
      parse_and_validate_from_detections dets = (false, none)) ∧
    (dets = [] → parse_and_validate_from_detections dets = (false, none)) ∧
    (∀ x y z,
      matchTriple (pyStrip (remove_timestamp_from_coord_string (concatChars dets)))
          = some (x, y, z) →
      ¬(|x| ≤ 9999999 ∧ |y| ≤ 9999999 ∧ |z| ≤ 9999999) →
      parse_and_validate_from_detections dets = (false, none)) := by
  refine ⟨?_, ?_, ?_, ?_⟩
  · intro x y z h hx hy hz
    by_cases hd : dets.isEmpty
    · rw [List.isEmpty_iff] at hd
      subst hd
      rw [show matchTriple (pyStrip (remove_timestamp_from_coord_string (concatChars [])))
          = none from by decide] at h
      exact absurd h (by simp)
    · simp only [parse_and_validate_from_detections, hd, if_false, Bool.false_eq_true,
        parseCoordString, h]
      simp [hx, hy, hz]
  · intro h
    by_cases hd : dets.isEmpty
    · simp [parse_and_validate_from_detections, hd]
    · simp [parse_and_validate_from_detections, hd, parseCoordString, h]
  · intro h
    subst h
    simp [parse_and_validate_from_detections]
  · intro x y z h hnot
    by_cases hd : dets.isEmpty
    · simp [parse_and_validate_from_detections, hd]
    · simp only [parse_and_validate_from_detections, hd, if_false, Bool.false_eq_true,
        parseCoordString, h]
      simp [hnot]

/-- Witness for C1 at the concrete detection list D2000. -/
theorem C1_parse_and_validate_witness :
    matchTriple (pyStrip (remove_timestamp_from_coord_string (concatChars D2000)))
        = some (2000, 0, 0) ∧
    parse_and_validate_from_detections D2000 = (true, some (2000, 0, 0)) := by
  have h : matchTriple (pyStrip (remove_timestamp_from_coord_string (concatChars D2000)))
      = some (2000, 0, 0) := by with_unfolding_all decide
  exact ⟨h, (C1_parse_and_validate D2000).1 2000 0 0 h (by decide) (by decide) (by decide)⟩

/-- The year-dash search only ever reports positions where the pattern
actually matches. -/
theorem findYearDash_sound : ∀ (s : List Char) (i : Nat),
    findYearDash s = some i → isYearDashAt (s.drop i) = true := by
  intro s
  induction s with
  | nil => intro i h; simp [findYearDash] at h
  | cons c rest ih =>
    intro i h
    rw [findYearDash] at h
    by_cases hy : isYearDashAt (c :: rest) = true
    · simp only [hy, if_true] at h
      obtain rfl : (0 : Nat) = i := Option.some.inj h
      simpa using hy
    · simp only [hy, if_false, Bool.false_eq_true, Option.map_eq_some'] at h
      obtain ⟨j, hj, rfl⟩ := h
      simpa using ih j hj

/-- C4: the timestamp stripper turns "-1234,5678,20 2025-01-01 10:00:00"
into exactly "-1234,5678,20", which then parses to (-1234, 5678, 20); and in
general the year-based truncation branch fires only at a position where the
full pattern 20[23]d- (digit followed by a hyphen) matches, truncating right
there — so a bare trailing z coordinate such as ",20 " can never trigger
it. -/
theorem C4_timestamp_stripping :
    (remove_timestamp_from_coord_string "-1234,5678,20 2025-01-01 10:00:00".toList
      = "-1234,5678,20".toList) ∧
    (parseCoordString "-1234,5678,20".toList = (true, some (-1234, 5678, 20))) ∧
    (∀ s i, findYearDash s = some i → isYearDashAt (s.drop i) = true) ∧
    (∀ s i, findYearDash s = some i →
      remove_timestamp_from_coord_string s = pyRstrip (s.take i)) := by
  refine ⟨by decide, by decide, findYearDash_sound, ?_⟩
  intro s i h
  simp [remove_timestamp_from_coord_string, h]

/-- Witness for C4 at the concrete scenario string. -/
theorem C4_timestamp_stripping_witness :
    findYearDash "-1234,5678,20 2025-01-01 10:00:00".toList = some 14 ∧
    isYearDashAt (("-1234,5678,20 2025-01-01 10:00:00".toList).drop 14) = true := by
  have h : findYearDash "-1234,5678,20 2025-01-01 10:00:00".toList = some 14 := by decide
  exact ⟨h, (C4_timestamp_stripping.2.2.1) _ 14 h⟩

/-- The empty word decodes the empty detection list. -/
theorem DecodesTo.nil : DecodesTo [] [] := List.Forall₂.nil

/-- Extending a decoding pair by one decoded character keeps it decoding. -/
theorem DecodesTo.single {c : Char} {d : Detection}
    (h : class_id_to_char_static d.cls = some c) : DecodesTo [c] [d] :=
  List.Forall₂.cons h List.Forall₂.nil

/-- Appending decoding pairs yields a decoding pair. -/
theorem DecodesTo.append {w1 w2 : List Char} {d1 d2 : List Detection}
    (h1 : DecodesTo w1 d1) (h2 : DecodesTo w2 d2) : DecodesTo (w1 ++ w2) (d1 ++ d2) :=
  List.rel_append h1 h2

/-- Unfolding equation of the walk at the end of the input. -/
theorem walkClusters_nil (avg sep : ℚ) (curW : List Char) (curD : List Detection)
    (lx2 : Option ℚ) :
    walkClusters avg sep [] curW curD lx2
      = if curW.isEmpty then [] else [⟨curW, curD⟩] := by
  rw [walkClusters]

/-- Unfolding equation of the walk at an undecodable detection. -/
theorem walkClusters_cons_none (avg sep : ℚ) (d : Detection) (rest : List Detection)
    (curW : List Char) (curD : List Detection) (lx2 : Option ℚ)
    (h : class_id_to_char_static d.cls = none) :
    walkClusters avg sep (d :: rest) curW curD lx2
      = walkClusters avg sep rest curW curD lx2 := by
  rw [walkClusters, h]

/-- Unfolding equation of the walk at the first decodable character. -/
theorem walkClusters_cons_first (avg sep : ℚ) (d : Detection) (rest : List Detection)
    (curW : List Char) (curD : List Detection) (c : Char)
    (h : class_id_to_char_static d.cls = some c) :
    walkClusters avg sep (d :: rest) curW curD none
      = walkClusters avg sep rest [c] [d] (some d.bbox.x2) := by
  rw [walkClusters, h]

/-- Unfolding equation of the walk when one of the separation criteria
fires: the pending cluster is emitted and a fresh one is started. -/
theorem walkClusters_cons_sep (avg sep : ℚ) (d : Detection) (rest : List Detection)
    (curW : List Char) (curD : List Detection) (lx2 : ℚ) (c : Char)
    (h : class_id_to_char_static d.cls = some c)
    (hcond : d.bbox.x1 - lx2 > sep ∨ d.bbox.x1 - lx2 > avg * (5 / 2) ∨
      (strippedIsDigit curW = true ∧ curW.length ≥ 4 ∧
        isDigitChar c = true ∧ d.bbox.x1 - lx2 > avg * 2)) :
    walkClusters avg sep (d :: rest) curW curD (some lx2)
      = (if curW.isEmpty then id else (⟨curW, curD⟩ :: ·))
          (walkClusters avg sep rest [c] [d] (some d.bbox.x2)) := by
  rw [walkClusters, h]
  simp only [if_pos hcond]

/-- Unfolding equation of the walk when no separation criterion fires: the
character joins the pending cluster. -/
theorem walkClusters_cons_app (avg sep : ℚ) (d : Detection) (rest : List Detection)
    (curW : List Char) (curD : List Detection) (lx2 : ℚ) (c : Char)
    (h : class_id_to_char_static d.cls = some c)
    (hcond : ¬(d.bbox.x1 - lx2 > sep ∨ d.bbox.x1 - lx2 > avg * (5 / 2) ∨
      (strippedIsDigit curW = true ∧ curW.length ≥ 4 ∧
        isDigitChar c = true ∧ d.bbox.x1 - lx2 > avg * 2))) :
    walkClusters avg sep (d :: rest) curW curD (some lx2)
      = walkClusters avg sep rest (curW ++ [c]) (curD ++ [d]) (some d.bbox.x2) := by
  rw [walkClusters, h]
  simp only [if_neg hcond]

/-- Invariant of the accumulation walk: provided the pending detections
followed by the remaining input are sorted and the pending word decodes the
pending detections, every emitted cluster is sorted and decoding. -/
theorem walkClusters_invariant (avg sep : ℚ) :
    ∀ (rest : List Detection) (curW : List Char) (curD : List Detection) (lx2 : Option ℚ),
      List.Sorted detLE (curD ++ rest) →
      DecodesTo curW curD →
      ∀ cl ∈ walkClusters avg sep rest curW curD lx2,
        List.Sorted detLE cl.detections ∧ DecodesTo cl.word cl.detections := by
  intro rest
  induction rest with
  | nil =>
    intro curW curD lx2 hs hf cl hcl
    rw [walkClusters_nil] at hcl
    split at hcl
    · simp at hcl
    · simp only [List.mem_singleton] at hcl
      subst hcl
      exact ⟨by simpa using hs, hf⟩
  | cons d rest ih =>
    intro curW curD lx2 hs hf cl hcl
    have hsort_rest : List.Sorted detLE (curD ++ rest) :=
      List.Pairwise.sublist (List.Sublist.append_left (List.sublist_cons_self d rest) curD) hs
    have hsort_tail : List.Sorted detLE (d :: rest) :=
      List.Pairwise.sublist (List.sublist_append_right curD (d :: rest)) hs
    have hsort_cur : List.Sorted detLE curD :=
      List.Pairwise.sublist (List.sublist_append_left curD (d :: rest)) hs
    have hsort_push : List.Sorted detLE ((curD ++ [d]) ++ rest) := by
      rw [List.append_assoc, List.singleton_append]
      exact hs
    cases hdec : class_id_to_char_static d.cls with
    | none =>
      rw [walkClusters_cons_none avg sep d rest curW curD lx2 hdec] at hcl
      exact ih curW curD lx2 hsort_rest hf cl hcl
    | some c =>
      cases lx2 with
      | none =>
        rw [walkClusters_cons_first avg sep d rest curW curD c hdec] at hcl
        exact ih [c] [d] (some d.bbox.x2) (by simpa using hsort_tail)
          (DecodesTo.single hdec) cl hcl
      | some lx2 =>
        by_cases hcond : d.bbox.x1 - lx2 > sep ∨ d.bbox.x1 - lx2 > avg * (5 / 2) ∨
            (strippedIsDigit curW = true ∧ curW.length ≥ 4 ∧
              isDigitChar c = true ∧ d.bbox.x1 - lx2 > avg * 2)
        · rw [walkClusters_cons_sep avg sep d rest curW curD lx2 c hdec hcond] at hcl
          by_cases hemp : curW.isEmpty
          · rw [if_pos hemp] at hcl
            exact ih [c] [d] (some d.bbox.x2) (by simpa using hsort_tail)
              (DecodesTo.single hdec) cl hcl
          · rw [if_neg hemp] at hcl
            simp only [List.mem_cons] at hcl
            rcases hcl with rfl | hcl
            · exact ⟨hsort_cur, hf⟩
            · exact ih [c] [d] (some d.bbox.x2) (by simpa using hsort_tail)
                (DecodesTo.single hdec) cl hcl
        · rw [walkClusters_cons_app avg sep d rest curW curD lx2 c hdec hcond] at hcl
          exact ih (curW ++ [c]) (curD ++ [d]) (some d.bbox.x2) hsort_push
            (DecodesTo.append hf (DecodesTo.single hdec)) cl hcl

/-- C9: every cluster emitted by the glyph clusterer has its detections
sorted by bounding-box x1 ascending, and its text decodes the detections
position by position. -/
theorem C9_cluster_invariant (dets : List Detection) (cl : Cluster)
    (hcl : cl ∈ cluster_detections_to_rich_clusters dets) :
    List.Sorted detLE cl.detections ∧ DecodesTo cl.word cl.detections := by
  simp only [cluster_detections_to_rich_clusters] at hcl
  split at hcl
  · simp at hcl
  · split at hcl
    · simp at hcl
    · exact walkClusters_invariant _ _ (sortByX1 dets) [] [] none
        (by simpa using List.sorted_insertionSort detLE dets) DecodesTo.nil cl hcl

/-- Witness for C9 at the concrete detection list D2000 and its cluster. -/
theorem C9_cluster_invariant_witness :
    List.Sorted detLE cl2000.detections ∧ DecodesTo cl2000.word cl2000.detections := by
  apply C9_cluster_invariant D2000
  with_unfolding_all decide

/-- On a tab-free word the source's incumbent length key (spaces removed)
agrees with the full space-and-tab stripping. -/
theorem cleanS_eq_cleanWT {w : List Char} (h : ('\t' : Char) ∉ w) :
    cleanS w = cleanWT w := by
  unfold cleanS cleanWT
  apply List.filter_congr
  intro c hc
  have hct : c ≠ '\t' := fun hceq => h (hceq ▸ hc)
  simp [hct]

/-- The selection step leaves the incumbent or installs the scanned
cluster; nothing else can come out of it. -/
theorem spec_select_step_cases (acc : Option Cluster) (cl b : Cluster)
    (h : spec_select_step acc cl = some b) : b = cl ∨ acc = some b := by
  cases acc with
  | none =>
    unfold spec_select_step at h
    dsimp only at h
    split at h
    · exact Or.inl (Option.some.inj h).symm
    · exact Option.noConfusion h
  | some a =>
    unfold spec_select_step at h
    dsimp only at h
    split at h
    · split at h
      · exact Or.inl (Option.some.inj h).symm
      · exact Or.inr h
    · exact Or.inr h

/-- On tab-free clusters (and a tab-free incumbent) the source's fold and
the spec's fold coincide. -/
theorem find_best_fold_eq_spec : ∀ (l : List Cluster) (acc : Option Cluster),
    (∀ cl ∈ l, ('\t' : Char) ∉ cl.word) →
    (∀ b, acc = some b → ('\t' : Char) ∉ b.word) →
    l.foldl find_best_step acc = l.foldl spec_select_step acc := by
  intro l
  induction l with
  | nil => intro acc _ _; rfl
  | cons cl t ih =>
    intro acc hl hacc
    have hstep : find_best_step acc cl = spec_select_step acc cl := by
      cases acc with
      | none => rfl
      | some b =>
        unfold find_best_step spec_select_step
        dsimp only
        rw [cleanS_eq_cleanWT (hacc b rfl)]
    rw [List.foldl_cons, List.foldl_cons, hstep]
    apply ih
    · exact fun x hx => hl x (List.mem_cons_of_mem cl hx)
    · intro b hb
      rcases spec_select_step_cases acc cl b hb with rfl | hb2
      · exact hl b (List.mem_cons_self b t)
      · exact hacc b hb2

/-- A fold over clusters none of which matches the grammar never leaves
the empty incumbent. -/
theorem find_best_fold_none : ∀ (l : List Cluster),
    (∀ cl ∈ l, (matchTriple (cleanWT cl.word)).isSome = false) →
    l.foldl find_best_step none = none := by
  intro l
  induction l with
  | nil => intro _; rfl
  | cons cl t ih =>
    intro hl
    have hstep : find_best_step none cl = none := by
      unfold find_best_step
      simp [hl cl (List.mem_cons_self cl t)]
    rw [List.foldl_cons, hstep]
    exact ih (fun x hx => hl x (List.mem_cons_of_mem cl hx))

/-- C5 counterexample: with the tabbed cluster "1,2,3\t" followed by the
longer tab-free match "11,2,3", the source keeps the first (its incumbent
length key counts the tab), while the spec's longest-stripped-match rule
selects the second; so the claim fails as stated on this input. -/
theorem C5_counterexample :
    find_best_coordinate_cluster [clTab, clLong] = some clTab ∧
    spec_select_cluster [clTab, clLong] = some clLong ∧
    clTab ≠ clLong ∧
    (cleanWT clTab.word).length < (cleanWT clLong.word).length ∧
    (matchTriple (cleanWT clTab.word)).isSome = true ∧
    (matchTriple (cleanWT clLong.word)).isSome = true := by
  refine ⟨by decide, by decide, by decide, by decide, by decide, by decide⟩

/-- C5 amended: when no cluster's text contains a tab character, the source
selector returns exactly the spec selection (among matching clusters, the
longest whitespace-stripped text, ties to the first encountered); and with
no matching cluster at all it returns no cluster.  (With a tab in an
incumbent's text the source compares against a length that still counts the
tab, which is the deviation exhibited by the counterexample.) -/
theorem C5_selector_amended :
    (∀ clusters : List Cluster, (∀ cl ∈ clusters, ('\t' : Char) ∉ cl.word) →
      find_best_coordinate_cluster clusters = spec_select_cluster clusters) ∧
    (∀ clusters : List Cluster,
      (∀ cl ∈ clusters, (matchTriple (cleanWT cl.word)).isSome = false) →
      find_best_coordinate_cluster clusters = none) := by
  constructor
  · intro clusters h
    exact find_best_fold_eq_spec clusters none h (by simp)
  · intro clusters h
    exact find_best_fold_none clusters h

/-- Witness for C5 on concrete tab-free inputs. -/
theorem C5_selector_amended_witness :
    find_best_coordinate_cluster [clLong] = spec_select_cluster [clLong] ∧
    find_best_coordinate_cluster [⟨[':'], []⟩] = none := by
  constructor
  · exact C5_selector_amended.1 [clLong] (by decide)
  · exact C5_selector_amended.2 [⟨[':'], []⟩] (by decide)

/-- C8 counterexample: in local mode the source emits "local_m" with no
trailing area component, not the "local_m_default" the claimed key format
<mode>_<provider-or-map>_<area-or-default> prescribes. -/
theorem C8_counterexample :
    get_map_key "local" "m" none = "local_m" ∧
    ("local_m" : String) ≠ "local_m_default" := by
  refine ⟨by decide, by decide⟩

/-- C8 amended: only online-mode keys carry the trailing area component
(with a missing or empty area id turning into "default"); every other mode,
in particular local, yields "local_<name>" with no area component. -/
theorem C8_map_key_amended :
    (∀ (p : String) (a : Option String),
      get_map_key "online" p a = "online_" ++ p ++ "_" ++ areaOrDefault a) ∧
    (∀ (m p : String) (a : Option String), m ≠ "online" →
      get_map_key m p a = "local_" ++ p) ∧
    areaOrDefault none = "default" ∧ areaOrDefault (some "") = "default" := by
  refine ⟨?_, ?_, rfl, by decide⟩
  · intro p a
    simp [get_map_key]
  · intro m p a hm
    simp [get_map_key, hm]

/-- Witness for C8 on a concrete non-online mode. -/
theorem C8_map_key_amended_witness :
    get_map_key "local" "m" (some "area1") = "local_" ++ "m" :=
  C8_map_key_amended.2.1 "local" "m" (some "area1") (by decide)

/-- For nonnegative radicand and threshold the integer square comparison of
the embedding agrees with the square-root comparison of the source. -/
theorem sqrtGT_iff_sqrt_lt {s m : Int} (hs : 0 ≤ s) (hm : 0 ≤ m) :
    sqrtGT s m = true ↔ (m : ℝ) < Real.sqrt (s : ℝ) := by
  unfold sqrtGT
  rw [if_neg (not_lt.2 hm), decide_eq_true_iff,
    Real.lt_sqrt (by exact_mod_cast hm : (0 : ℝ) ≤ (m : ℝ))]
  constructor
  · intro h
    have h2 : ((m * m : ℤ) : ℝ) < ((s : ℤ) : ℝ) := by exact_mod_cast h
    calc (m : ℝ) ^ 2 = ((m * m : ℤ) : ℝ) := by push_cast; ring
      _ < (s : ℝ) := h2
  · intro h
    have h2 : ((m * m : ℤ) : ℝ) < ((s : ℤ) : ℝ) := by
      calc ((m * m : ℤ) : ℝ) = (m : ℝ) ^ 2 := by push_cast; ring
        _ < (s : ℝ) := h
    exact_mod_cast h2

/-- C10: with no previously accepted coordinate the teleport check returns
false, so the first valid coordinate after a reset can never be rejected as
a jump; and both threshold comparisons are strict, so a candidate whose z
difference equals z_axis_threshold exactly and whose horizontal displacement
equals max_speed_threshold exactly is not classified as a teleport jump. -/
theorem C10_teleport_guard :
    (∀ (st : WorkerState) (c : Int × Int × Int),
      st.last_valid_coord = none → is_teleport_jump st c = false) ∧
    (∀ (st : WorkerState) (p c : Int × Int × Int),
      st.last_valid_coord = some p →
      0 ≤ st.max_speed_threshold →
      |c.2.2 - p.2.2| = st.z_axis_threshold →
      Real.sqrt (((c.1 - p.1 : ℤ) : ℝ) ^ 2 + ((c.2.1 - p.2.1 : ℤ) : ℝ) ^ 2)
        = (st.max_speed_threshold : ℝ) →
      is_teleport_jump st c = false) := by
  constructor
  · intro st c h
    unfold is_teleport_jump
    rw [h]
  · intro st p c hlast hm hz hsqrt
    unfold is_teleport_jump
    rw [hlast]
    dsimp only
    rw [if_neg (by rw [hz]; exact lt_irrefl _)]
    have hsq : (c.1 - p.1) * (c.1 - p.1) + (c.2.1 - p.2.1) * (c.2.1 - p.2.1)
        = st.max_speed_threshold * st.max_speed_threshold := by
      have hs0 : (0 : ℝ) ≤ ((c.1 - p.1 : ℤ) : ℝ) ^ 2 + ((c.2.1 - p.2.1 : ℤ) : ℝ) ^ 2 := by
        positivity
      have := congrArg (fun t : ℝ => t ^ 2) hsqrt
      simp only [Real.sq_sqrt hs0] at this
      have hcast : (((c.1 - p.1) * (c.1 - p.1) + (c.2.1 - p.2.1) * (c.2.1 - p.2.1) : ℤ) : ℝ)
          = ((st.max_speed_threshold * st.max_speed_threshold : ℤ) : ℝ) := by
        push_cast
        push_cast at this
        linarith
      exact_mod_cast hcast
    have hGT : sqrtGT ((c.1 - p.1) * (c.1 - p.1) + (c.2.1 - p.2.1) * (c.2.1 - p.2.1))
        st.max_speed_threshold = false := by
      unfold sqrtGT
      rw [if_neg (not_lt.2 hm)]
      simp [hsq]
    rw [hGT]
    simp

/-- Witness for C10 at concrete states and candidates. -/
theorem C10_teleport_guard_witness :
    is_teleport_jump ⟨RState.SEARCHING, none, none, 0, 1000, 50, 5⟩ (5, 5, 5) = false ∧
    is_teleport_jump st0 (600, 800, 50) = false := by
  constructor
  · exact C10_teleport_guard.1 _ (5, 5, 5) rfl
  · apply C10_teleport_guard.2 st0 (0, 0, 0) (600, 800, 50) rfl (by decide) (by decide)
    rw [show st0.max_speed_threshold = (1000 : ℤ) from rfl]
    push_cast
    rw [show ((600 : ℝ)) ^ 2 + ((800 : ℝ)) ^ 2 = (1000 : ℝ) ^ 2 by norm_num]
    exact Real.sqrt_sq (by norm_num)

/-- The LOCKED handler only ever touches the template detections: the
recognition state, failure counter and thresholds pass through. -/
theorem handle_locked_fields (st : WorkerState) (best : Option Cluster) :
    (handle_locked_state st best).1.recognition_state = st.recognition_state ∧
    (handle_locked_state st best).1.consecutive_failures = st.consecutive_failures ∧
    (handle_locked_state st best).1.lost_threshold_frames = st.lost_threshold_frames := by
  cases best with
  | none => simp [handle_locked_state]
  | some cl =>
    rcases hp : parse_and_validate_from_detections cl.detections with ⟨b, oc⟩
    cases b <;> cases oc <;> simp [handle_locked_state, hp] <;> (split_ifs <;> simp)

/-- The SEARCHING/LOST handler only ever touches the template detections:
the recognition state, failure counter and thresholds pass through. -/
theorem handle_searching_fields (st : WorkerState) (best : Option Cluster) :
    (handle_searching_state st best).1.recognition_state = st.recognition_state ∧
    (handle_searching_state st best).1.consecutive_failures = st.consecutive_failures ∧
    (handle_searching_state st best).1.lost_threshold_frames = st.lost_threshold_frames := by
  cases best with
  | none => simp [handle_searching_state]
  | some cl =>
    rcases hp : parse_and_validate_from_detections cl.detections with ⟨b, oc⟩
    cases b <;> cases oc <;> simp [handle_searching_state, hp]

/-- The square-comparison form of the horizontal check, phrased with the
square root the source computes. -/
theorem sqrtGT_sq_iff (dx dy m : Int) (hm : 0 ≤ m) :
    (sqrtGT (dx * dx + dy * dy) m = true ↔
      Real.sqrt (((dx : ℤ) : ℝ) ^ 2 + ((dy : ℤ) : ℝ) ^ 2) > (m : ℝ)) := by
  have harg : ((dx * dx + dy * dy : ℤ) : ℝ) = ((dx : ℤ) : ℝ) ^ 2 + ((dy : ℤ) : ℝ) ^ 2 := by
    push_cast
    ring
  rw [sqrtGT_iff_sqrt_lt (add_nonneg (mul_self_nonneg dx) (mul_self_nonneg dy)) hm, harg]

/-- The teleport check flags exactly a z difference beyond z_axis_threshold
or a horizontal displacement beyond max_speed_threshold. -/
theorem teleport_jump_iff (st : WorkerState) (x0 y0 z0 : Int) (c : Int × Int × Int)
    (hlast : st.last_valid_coord = some (x0, y0, z0)) (hm : 0 ≤ st.max_speed_threshold) :
    (is_teleport_jump st c = true ↔
      (|c.2.2 - z0| > st.z_axis_threshold ∨
        Real.sqrt (((c.1 - x0 : ℤ) : ℝ) ^ 2 + ((c.2.1 - y0 : ℤ) : ℝ) ^ 2)
          > (st.max_speed_threshold : ℝ))) := by
  unfold is_teleport_jump
  rw [hlast]
  dsimp only
  by_cases hz : |c.2.2 - z0| > st.z_axis_threshold
  · simp [hz]
  · rw [if_neg hz]
    simp only [hz, false_or]
    rw [← sqrtGT_sq_iff (c.1 - x0) (c.2.1 - y0) st.max_speed_threshold hm]
    cases hG : sqrtGT ((c.1 - x0) * (c.1 - x0) + (c.2.1 - y0) * (c.2.1 - y0))
        st.max_speed_threshold <;> simp [hG]

/-- In SEARCHING and in LOST the dispatch runs the jump-free handler. -/
theorem run_state_handler_searching (st : WorkerState) (best : Option Cluster)
    (hrs : st.recognition_state = RState.SEARCHING ∨ st.recognition_state = RState.LOST) :
    run_state_handler st best = handle_searching_state st best := by
  unfold run_state_handler
  rcases hrs with h | h <;> rw [h]

/-- In LOCKED the dispatch runs the jump-checked handler. -/
theorem run_state_handler_locked (st : WorkerState) (best : Option Cluster)
    (hrs : st.recognition_state = RState.LOCKED) :
    run_state_handler st best = handle_locked_state st best := by
  unfold run_state_handler
  rw [hrs]

/-- In SEARCHING and LOST any successfully parsed best cluster is accepted
with no jump check. -/
theorem searching_accepts (st : WorkerState) (raw : List Detection) (cl : Cluster)
    (c : Int × Int × Int)
    (hrs : st.recognition_state = RState.SEARCHING ∨ st.recognition_state = RState.LOST)
    (hbest : find_best_coordinate_cluster (cluster_detections_to_rich_clusters raw) = some cl)
    (hp : parse_and_validate_from_detections cl.detections = (true, some c)) :
    (apply_tracking_algorithm st raw).success = true ∧
    (apply_tracking_algorithm st raw).coords = some c := by
  unfold apply_tracking_algorithm
  have hh : handle_searching_state st (some cl)
      = ({ st with last_valid_detections := some cl.detections }, true, some c) := by
    simp [handle_searching_state, hp]
  rw [hbest, run_state_handler_searching st (some cl) hrs, hh]
  exact ⟨rfl, rfl⟩

/-- In LOCKED a successfully parsed best cluster is rejected exactly when
the teleport check flags it. -/
theorem locked_reject_iff (st : WorkerState) (raw : List Detection) (cl : Cluster)
    (c : Int × Int × Int)
    (hrs : st.recognition_state = RState.LOCKED)
    (hbest : find_best_coordinate_cluster (cluster_detections_to_rich_clusters raw) = some cl)
    (hp : parse_and_validate_from_detections cl.detections = (true, some c)) :
    ((apply_tracking_algorithm st raw).success = false ↔ is_teleport_jump st c = true) := by
  unfold apply_tracking_algorithm
  rw [hbest, run_state_handler_locked st (some cl) hrs]
  cases hj : is_teleport_jump st c with
  | true =>
    rw [show handle_locked_state st (some cl) = (st, false, none) from by
      simp [handle_locked_state, hp, hj]]
    simp [finalize_tick]
  | false =>
    rw [show handle_locked_state st (some cl)
        = ({ st with last_valid_detections := some cl.detections }, true, some c) from by
      simp [handle_locked_state, hp, hj]]
    simp [finalize_tick]

/-- C2: with last accepted (0,0,0) and thresholds 1000/50, the valid
candidate (2000,0,0) is rejected while LOCKED but accepted in LOST and in
SEARCHING; in general SEARCHING and LOST accept every validly parsed best
cluster with no jump check, while LOCKED rejects a validly parsed candidate
exactly when the z difference exceeds z_axis_threshold or the horizontal
displacement sqrt(dx^2 + dy^2) exceeds max_speed_threshold. -/
theorem C2_teleport_rejection :
    ((apply_tracking_algorithm st0 D2000).success = false ∧
     (apply_tracking_algorithm stLost D2000).success = true ∧
     (apply_tracking_algorithm stLost D2000).coords = some (2000, 0, 0) ∧
     (apply_tracking_algorithm stSearch D2000).success = true ∧
     (apply_tracking_algorithm stSearch D2000).coords = some (2000, 0, 0)) ∧
    (∀ (st : WorkerState) (raw : List Detection) (cl : Cluster) (c : Int × Int × Int),
      (st.recognition_state = RState.SEARCHING ∨ st.recognition_state = RState.LOST) →
      find_best_coordinate_cluster (cluster_detections_to_rich_clusters raw) = some cl →
      parse_and_validate_from_detections cl.detections = (true, some c) →
      (apply_tracking_algorithm st raw).success = true ∧
      (apply_tracking_algorithm st raw).coords = some c) ∧
    (∀ (st : WorkerState) (raw : List Detection) (cl : Cluster) (c : Int × Int × Int)
        (x0 y0 z0 : Int),
      st.recognition_state = RState.LOCKED →
      st.last_valid_coord = some (x0, y0, z0) →
      0 ≤ st.max_speed_threshold →
      find_best_coordinate_cluster (cluster_detections_to_rich_clusters raw) = some cl →
      parse_and_validate_from_detections cl.detections = (true, some c) →
      ((apply_tracking_algorithm st raw).success = false ↔
        (|c.2.2 - z0| > st.z_axis_threshold ∨
          Real.sqrt (((c.1 - x0 : ℤ) : ℝ) ^ 2 + ((c.2.1 - y0 : ℤ) : ℝ) ^ 2)
            > (st.max_speed_threshold : ℝ)))) := by
  refine ⟨⟨?_, ?_, ?_, ?_, ?_⟩, ?_, ?_⟩
  · with_unfolding_all decide
  · with_unfolding_all decide
  · with_unfolding_all decide
  · with_unfolding_all decide
  · with_unfolding_all decide
  · intro st raw cl c hrs hbest hp
    exact searching_accepts st raw cl c hrs hbest hp
  · intro st raw cl c x0 y0 z0 hrs hlast hm hbest hp
    rw [locked_reject_iff st raw cl c hrs hbest hp]
    exact teleport_jump_iff st x0 y0 z0 c hlast hm

/-- Witness for C2 at the concrete LOST and LOCKED scenarios. -/
theorem C2_teleport_rejection_witness :
    ((apply_tracking_algorithm stLost D2000).success = true ∧
     (apply_tracking_algorithm stLost D2000).coords = some (2000, 0, 0)) ∧
    ((apply_tracking_algorithm st0 D2000).success = false ↔
      (|(0 : ℤ) - 0| > st0.z_axis_threshold ∨
        Real.sqrt ((((2000 : ℤ) - 0 : ℤ) : ℝ) ^ 2 + (((0 : ℤ) - 0 : ℤ) : ℝ) ^ 2)
          > (st0.max_speed_threshold : ℝ))) := by
  constructor
  · exact C2_teleport_rejection.2.1 stLost D2000 cl2000 (2000, 0, 0) (Or.inr rfl)
      (by with_unfolding_all decide) (by with_unfolding_all decide)
  · exact C2_teleport_rejection.2.2 st0 D2000 cl2000 (2000, 0, 0) 0 0 0 rfl rfl
      (by decide) (by with_unfolding_all decide) (by with_unfolding_all decide)

/-- The dispatch only ever touches the template detections: recognition
state, failure counter and threshold pass through to its state output. -/
theorem run_state_handler_fields (st : WorkerState) (best : Option Cluster) :
    (run_state_handler st best).1.recognition_state = st.recognition_state ∧
    (run_state_handler st best).1.consecutive_failures = st.consecutive_failures ∧
    (run_state_handler st best).1.lost_threshold_frames = st.lost_threshold_frames := by
  by_cases h : st.recognition_state = RState.LOCKED
  · rw [run_state_handler_locked st best h]
    exact handle_locked_fields st best
  · have h2 : st.recognition_state = RState.SEARCHING ∨ st.recognition_state = RState.LOST := by
      cases hs : st.recognition_state
      · exact absurd hs h
      · exact Or.inr rfl
      · exact Or.inl rfl
    rw [run_state_handler_searching st best h2]
    exact handle_searching_fields st best

/-- Field content of a successful finalisation: counter reset, coordinate
stored, state LOCKED, a state change emitted only when not already
LOCKED. -/
theorem finalize_tick_success_fields (st1 : WorkerState) (c : Int × Int × Int) :
    (finalize_tick st1 true (some c)).state.consecutive_failures = 0 ∧
    (finalize_tick st1 true (some c)).state.last_valid_coord = some c ∧
    (finalize_tick st1 true (some c)).state.recognition_state = RState.LOCKED ∧
    (finalize_tick st1 true (some c)).success = true ∧
    (finalize_tick st1 true (some c)).coords = some c ∧
    ((finalize_tick st1 true (some c)).emitted
      = if st1.recognition_state = RState.LOCKED then [] else [RState.LOCKED]) := by
  unfold finalize_tick transition_to_locked
  by_cases h : st1.recognition_state = RState.LOCKED
  · simp [h]
  · simp [h]

/-- Field content of a failed finalisation: counter incremented, and the
LOST transition taken exactly from LOCKED at the threshold. -/
theorem finalize_tick_false_fields (st1 : WorkerState) (cds : Option (Int × Int × Int)) :
    (finalize_tick st1 false cds).state.consecutive_failures
      = st1.consecutive_failures + 1 ∧
    (finalize_tick st1 false cds).success = false ∧
    (st1.recognition_state = RState.LOCKED →
      st1.consecutive_failures + 1 ≥ st1.lost_threshold_frames →
      (finalize_tick st1 false cds).state.recognition_state = RState.LOST) := by
  cases cds <;>
  · unfold finalize_tick transition_to_lost
    by_cases h : st1.recognition_state = RState.LOCKED ∧
        st1.consecutive_failures + 1 ≥ st1.lost_threshold_frames
    · simp only [if_pos h]
      by_cases h2 : st1.recognition_state = RState.LOST
      · rw [h2] at h
        exact absurd h.1 (by decide)
      · simp [h2]
    · simp only [if_neg h]
      refine ⟨trivial, trivial, ?_⟩
      intro h1 h2
      exact absurd ⟨h1, h2⟩ h

/-- A spurious success flag with no coordinate still runs the failure
branch, whose outputs keep the flag and the missing coordinate. -/
theorem finalize_tick_true_none (st1 : WorkerState) :
    (finalize_tick st1 true none).success = true ∧
    (finalize_tick st1 true none).coords = none := ⟨rfl, rfl⟩

/-- C3: every tick with an accepted coordinate resets the failure counter,
stores the coordinate, ends LOCKED and emits a state change exactly when the
tick did not start LOCKED; every failed tick increments the counter and,
from LOCKED with the counter at lost_threshold_frames, ends LOST; with
threshold 5, four empty ticks from LOCKED stay LOCKED, the fifth reaches
LOST, and the next successful parse returns to LOCKED. -/
theorem C3_tracking_tick :
    (∀ (st : WorkerState) (raw : List Detection) (c : Int × Int × Int),
      (apply_tracking_algorithm st raw).success = true →
      (apply_tracking_algorithm st raw).coords = some c →
      (apply_tracking_algorithm st raw).state.consecutive_failures = 0 ∧
      (apply_tracking_algorithm st raw).state.last_valid_coord = some c ∧
      (apply_tracking_algorithm st raw).state.recognition_state = RState.LOCKED ∧
      ((apply_tracking_algorithm st raw).emitted =
        if st.recognition_state = RState.LOCKED then [] else [RState.LOCKED])) ∧
    (∀ (st : WorkerState) (raw : List Detection),
      (apply_tracking_algorithm st raw).success = false →
      (apply_tracking_algorithm st raw).state.consecutive_failures
        = st.consecutive_failures + 1 ∧
      (st.recognition_state = RState.LOCKED →
        st.consecutive_failures + 1 ≥ st.lost_threshold_frames →
        (apply_tracking_algorithm st raw).state.recognition_state = RState.LOST)) ∧
    ((failTick (failTick (failTick (failTick st0)))).recognition_state
        = RState.LOCKED ∧
     (failTick (failTick (failTick (failTick (failTick st0))))).recognition_state
        = RState.LOST ∧
     (apply_tracking_algorithm
        (failTick (failTick (failTick (failTick (failTick st0))))) D2000).success
        = true ∧
     (apply_tracking_algorithm
        (failTick (failTick (failTick (failTick (failTick st0))))) D2000).coords
        = some (2000, 0, 0) ∧
     (apply_tracking_algorithm
        (failTick (failTick (failTick (failTick (failTick st0))))) D2000).state.recognition_state
        = RState.LOCKED ∧
     (apply_tracking_algorithm
        (failTick (failTick (failTick (failTick (failTick st0))))) D2000).emitted
        = [RState.LOCKED]) := by
  have happ : ∀ (st : WorkerState) (raw : List Detection),
      apply_tracking_algorithm st raw
        = finalize_tick
            (run_state_handler st
              (find_best_coordinate_cluster (cluster_detections_to_rich_clusters raw))).1
            (run_state_handler st
              (find_best_coordinate_cluster (cluster_detections_to_rich_clusters raw))).2.1
            (run_state_handler st
              (find_best_coordinate_cluster (cluster_detections_to_rich_clusters raw))).2.2 :=
    fun _ _ => rfl
  refine ⟨?_, ?_, ?_, ?_, ?_, ?_, ?_, ?_⟩
  · intro st raw c hs hc
    have hfields := run_state_handler_fields st
      (find_best_coordinate_cluster (cluster_detections_to_rich_clusters raw))
    rcases hh : run_state_handler st
        (find_best_coordinate_cluster (cluster_detections_to_rich_clusters raw))
      with ⟨st1, succ, cds⟩
    rw [happ st raw, hh] at hs hc ⊢
    rw [hh] at hfields
    dsimp only at hs hc hfields ⊢
    cases succ with
    | false =>
      rw [(finalize_tick_false_fields st1 cds).2.1] at hs
      exact absurd hs (by decide)
    | true =>
      cases cds with
      | none =>
        rw [(finalize_tick_true_none st1).2] at hc
        exact absurd hc (by simp)
      | some c0 =>
        have hfin := finalize_tick_success_fields st1 c0
        rw [hfin.2.2.2.2.1] at hc
        obtain rfl : c0 = c := Option.some.inj hc
        refine ⟨hfin.1, hfin.2.1, hfin.2.2.1, ?_⟩
        rw [hfin.2.2.2.2.2, hfields.1]
  · intro st raw hs
    have hfields := run_state_handler_fields st
      (find_best_coordinate_cluster (cluster_detections_to_rich_clusters raw))
    rcases hh : run_state_handler st
        (find_best_coordinate_cluster (cluster_detections_to_rich_clusters raw))
      with ⟨st1, succ, cds⟩
    rw [happ st raw, hh] at hs ⊢
    rw [hh] at hfields
    dsimp only at hs hfields ⊢
    cases succ with
    | true =>
      cases cds with
      | none =>
        rw [(finalize_tick_true_none st1).1] at hs
        exact absurd hs (by decide)
      | some c0 =>
        rw [(finalize_tick_success_fields st1 c0).2.2.2.1] at hs
        exact absurd hs (by decide)
    | false =>
      have hfin := finalize_tick_false_fields st1 cds
      refine ⟨by rw [hfin.1, hfields.2.1], ?_⟩
      intro h1 h2
      exact hfin.2.2 (by rw [hfields.1]; exact h1)
        (by rw [hfields.2.1, hfields.2.2]; exact h2)
  · with_unfolding_all decide
  · with_unfolding_all decide
  · with_unfolding_all decide
  · with_unfolding_all decide
  · with_unfolding_all decide
  · with_unfolding_all decide

/-- Witness for C3 at the concrete LOST-to-LOCKED recovery tick. -/
theorem C3_tracking_tick_witness :
    (apply_tracking_algorithm stLost D2000).state.consecutive_failures = 0 ∧
    (apply_tracking_algorithm stLost D2000).state.last_valid_coord = some (2000, 0, 0) ∧
    (apply_tracking_algorithm stLost D2000).state.recognition_state = RState.LOCKED ∧
    ((apply_tracking_algorithm stLost D2000).emitted =
      if stLost.recognition_state = RState.LOCKED then [] else [RState.LOCKED]) ∧
    (apply_tracking_algorithm st0 []).state.consecutive_failures
      = st0.consecutive_failures + 1 := by
  have h1 := C3_tracking_tick.1 stLost D2000 (2000, 0, 0)
    (by with_unfolding_all decide) (by with_unfolding_all decide)
  have h2 := C3_tracking_tick.2.1 st0 [] (by with_unfolding_all decide)
  exact ⟨h1.1, h1.2.1, h1.2.2.1, h1.2.2.2, h2.1⟩

/-- The squared residual is nonnegative. -/
theorem SSE_nonneg (pts : List CalibrationPoint) (m : TransformMatrix) :
    0 ≤ SSE pts m := by
  unfold SSE
  apply List.sum_nonneg
  intro x hx
  simp only [List.mem_map] at hx
  obtain ⟨p, _, rfl⟩ := hx
  positivity

/-- The component solution over two points minimises the two-term squared
residual of that component. -/
theorem lineSol_min (x1 y1 v1 x2 y2 v2 a' b' c' : ℚ) :
    ((lineSol x1 y1 v1 x2 y2 v2).1 * x1 + (lineSol x1 y1 v1 x2 y2 v2).2.1 * y1 +
        (lineSol x1 y1 v1 x2 y2 v2).2.2 - v1) ^ 2 +
      ((lineSol x1 y1 v1 x2 y2 v2).1 * x2 + (lineSol x1 y1 v1 x2 y2 v2).2.1 * y2 +
        (lineSol x1 y1 v1 x2 y2 v2).2.2 - v2) ^ 2 ≤
    (a' * x1 + b' * y1 + c' - v1) ^ 2 + (a' * x2 + b' * y2 + c' - v2) ^ 2 := by
  unfold lineSol
  by_cases hx : x1 ≠ x2
  · rw [if_pos hx]
    dsimp only
    have e1 : (v1 - v2) / (x1 - x2) * x1 + 0 * y1 + (v1 - (v1 - v2) / (x1 - x2) * x1) - v1
        = 0 := by ring
    have e2 : (v1 - v2) / (x1 - x2) * x2 + 0 * y2 + (v1 - (v1 - v2) / (x1 - x2) * x1) - v2
        = 0 := by
      have hsub : x1 - x2 ≠ 0 := sub_ne_zero.2 hx
      field_simp
      ring
    rw [e1, e2]
    have h00 : (0 : ℚ) ^ 2 + (0 : ℚ) ^ 2 = 0 := by norm_num
    rw [h00]
    positivity
  · rw [if_neg hx]
    push_neg at hx
    subst hx
    by_cases hy : y1 ≠ y2
    · rw [if_pos hy]
      dsimp only
      have e1 : 0 * x1 + (v1 - v2) / (y1 - y2) * y1 + (v1 - (v1 - v2) / (y1 - y2) * y1) - v1
          = 0 := by ring
      have e2 : 0 * x1 + (v1 - v2) / (y1 - y2) * y2 + (v1 - (v1 - v2) / (y1 - y2) * y1) - v2
          = 0 := by
        have hsub : y1 - y2 ≠ 0 := sub_ne_zero.2 hy
        field_simp
        ring
      rw [e1, e2]
      have h00 : (0 : ℚ) ^ 2 + (0 : ℚ) ^ 2 = 0 := by norm_num
      rw [h00]
      positivity
    · rw [if_neg hy]
      push_neg at hy
      subst hy
      dsimp only
      nlinarith [sq_nonneg (2 * (a' * x1 + b' * y1 + c') - v1 - v2), sq_nonneg (v1 - v2)]

/-- The explicit two-point solution is a least-squares minimiser of the
two-point design system. -/
theorem twoPointSol_isLstsq (p1 p2 : CalibrationPoint) :
    IsLstsqSol [p1, p2] (twoPointSol p1 p2) := by
  intro m'
  have hl := lineSol_min p1.x p1.y p1.lat p2.x p2.y p2.lat m'.a m'.b m'.c
  have ho := lineSol_min p1.x p1.y p1.lon p2.x p2.y p2.lon m'.d m'.e m'.f
  simp only [SSE, List.map_cons, List.map_nil, List.sum_cons, List.sum_nil, add_zero,
    transform_lat, transform_lon, twoPointSol]
  linarith

/-- C6 counterexample: with exactly two calibration points the 4 x 6 design
system is singular (two distinct coefficient vectors mA and mB interpolate
calibP2 exactly, so the least-squares minimiser is not unique), yet the
solver succeeds with an ok result and a computation error is impossible —
contradicting the claim that a singular design matrix is rejected with a
computation error. -/
theorem C6_counterexample :
    calculate_transform_matrix_spec calibP2 (CalibResult.ok mA) ∧
    (¬ calculate_transform_matrix_spec calibP2 CalibResult.computationError) ∧
    mA ≠ mB ∧ SSE calibP2 mA = 0 ∧ SSE calibP2 mB = 0 ∧
    IsLstsqSol calibP2 mA ∧ IsLstsqSol calibP2 mB := by
  have hA : SSE calibP2 mA = 0 := by with_unfolding_all decide
  have hB : SSE calibP2 mB = 0 := by with_unfolding_all decide
  have hlsA : IsLstsqSol calibP2 mA := by
    intro m'
    rw [hA]
    exact SSE_nonneg calibP2 m'
  have hlsB : IsLstsqSol calibP2 mB := by
    intro m'
    rw [hB]
    exact SSE_nonneg calibP2 m'
  refine ⟨?_, ?_, by decide, hA, hB, hlsA, hlsB⟩
  · unfold calculate_transform_matrix_spec
    rw [if_neg (by decide)]
    exact ⟨mA, rfl, hlsA⟩
  · intro hcontra
    unfold calculate_transform_matrix_spec at hcontra
    rw [if_neg (by decide)] at hcontra
    obtain ⟨m, hm, _⟩ := hcontra
    exact CalibResult.noConfusion hm

/-- C6 amended: fewer than two points are rejected with the validation
error and nothing else; the computation error is never a possible outcome
(in exact arithmetic lstsq always returns a minimiser, so singular designs
are not rejected); and from exactly two points the solver succeeds with an
explicit least-squares solution rather than raising a not-enough-data
error. -/
theorem C6_calibration_errors (pts : List CalibrationPoint) (r : CalibResult) :
    (pts.length < 2 →
      (calculate_transform_matrix_spec pts r ↔ r = CalibResult.validationError)) ∧
    (calculate_transform_matrix_spec pts r → r ≠ CalibResult.computationError) ∧
    (∀ p1 p2, pts = [p1, p2] →
      calculate_transform_matrix_spec pts (CalibResult.ok (twoPointSol p1 p2))) := by
  refine ⟨?_, ?_, ?_⟩
  · intro hlen
    unfold calculate_transform_matrix_spec
    rw [if_pos hlen]
  · intro hspec
    unfold calculate_transform_matrix_spec at hspec
    split at hspec
    · rw [hspec]
      decide
    · obtain ⟨m, hm, _⟩ := hspec
      rw [hm]
      intro hcontra
      exact CalibResult.noConfusion hcontra
  · intro p1 p2 hpts
    subst hpts
    unfold calculate_transform_matrix_spec
    rw [if_neg (by simp)]
    exact ⟨twoPointSol p1 p2, rfl, twoPointSol_isLstsq p1 p2⟩

/-- Witness for C6 at the concrete two-point input. -/
theorem C6_calibration_errors_witness :
    (calculate_transform_matrix_spec [] CalibResult.validationError ↔
      CalibResult.validationError = CalibResult.validationError) ∧
    calculate_transform_matrix_spec calibP2
      (CalibResult.ok (twoPointSol ⟨0, 0, 0, 0⟩ ⟨1, 1, 1, 1⟩)) := by
  constructor
  · exact (C6_calibration_errors [] CalibResult.validationError).1 (by decide)
  · exact (C6_calibration_errors calibP2
      (CalibResult.ok (twoPointSol ⟨0, 0, 0, 0⟩ ⟨1, 1, 1, 1⟩))).2.2 ⟨0, 0, 0, 0⟩ ⟨1, 1, 1, 1⟩ rfl

/-- With a nonzero determinant the Cramer solution interpolates the three
prescribed values exactly. -/
theorem cramer3_interpolates (p1 p2 p3 : CalibrationPoint) (v1 v2 v3 : ℚ)
    (hD : det3 p1 p2 p3 ≠ 0) :
    (cramer3 p1 p2 p3 v1 v2 v3).1 * p1.x + (cramer3 p1 p2 p3 v1 v2 v3).2.1 * p1.y +
        (cramer3 p1 p2 p3 v1 v2 v3).2.2 = v1 ∧
    (cramer3 p1 p2 p3 v1 v2 v3).1 * p2.x + (cramer3 p1 p2 p3 v1 v2 v3).2.1 * p2.y +
        (cramer3 p1 p2 p3 v1 v2 v3).2.2 = v2 ∧
    (cramer3 p1 p2 p3 v1 v2 v3).1 * p3.x + (cramer3 p1 p2 p3 v1 v2 v3).2.1 * p3.y +
        (cramer3 p1 p2 p3 v1 v2 v3).2.2 = v3 := by
  unfold cramer3 at *
  unfold det3 at *
  refine ⟨?_, ?_, ?_⟩ <;>
  · field_simp
    ring

/-- The exact interpolant has zero squared residual on its three defining
points. -/
theorem exactTransform_SSE (p1 p2 p3 : CalibrationPoint) (hD : det3 p1 p2 p3 ≠ 0) :
    SSE [p1, p2, p3] (exactTransform p1 p2 p3) = 0 := by
  obtain ⟨hl1, hl2, hl3⟩ := cramer3_interpolates p1 p2 p3 p1.lat p2.lat p3.lat hD
  obtain ⟨ho1, ho2, ho3⟩ := cramer3_interpolates p1 p2 p3 p1.lon p2.lon p3.lon hD
  simp only [SSE, List.map_cons, List.map_nil, List.sum_cons, List.sum_nil, add_zero,
    transform_lat, transform_lon, exactTransform]
  rw [hl1, hl2, hl3, ho1, ho2, ho3]
  ring

/-- C7: fitting the six-parameter transform from any three non-collinear
calibration points by least squares and applying the forward transform to
each point's game coordinates reproduces its geographic coordinates within
the 1e-6 tolerance (in exact arithmetic the error is zero). -/
theorem C7_calibration_roundtrip (p1 p2 p3 : CalibrationPoint) (m : TransformMatrix)
    (hD : det3 p1 p2 p3 ≠ 0) (hm : IsLstsqSol [p1, p2, p3] m) :
    ∀ p ∈ [p1, p2, p3],
      |transform_lat m p.x p.y - p.lat| ≤ 1 / 1000000 ∧
      |transform_lon m p.x p.y - p.lon| ≤ 1 / 1000000 := by
  have h0 : SSE [p1, p2, p3] m = 0 :=
    le_antisymm ((hm (exactTransform p1 p2 p3)).trans_eq (exactTransform_SSE p1 p2 p3 hD))
      (SSE_nonneg [p1, p2, p3] m)
  simp only [SSE, List.map_cons, List.map_nil, List.sum_cons, List.sum_nil, add_zero] at h0
  have q1l := sq_nonneg (transform_lat m p1.x p1.y - p1.lat)
  have q1o := sq_nonneg (transform_lon m p1.x p1.y - p1.lon)
  have q2l := sq_nonneg (transform_lat m p2.x p2.y - p2.lat)
  have q2o := sq_nonneg (transform_lon m p2.x p2.y - p2.lon)
  have q3l := sq_nonneg (transform_lat m p3.x p3.y - p3.lat)
  have q3o := sq_nonneg (transform_lon m p3.x p3.y - p3.lon)
  have key : ∀ t : ℚ, t ^ 2 = 0 → |t| ≤ 1 / 1000000 := by
    intro t ht
    rw [pow_eq_zero_iff (by norm_num : (2 : ℕ) ≠ 0)] at ht
    rw [ht]
    norm_num
  intro p hp
  simp only [List.mem_cons, List.not_mem_nil, or_false] at hp
  rcases hp with rfl | rfl | rfl
  · exact ⟨key _ (by linarith), key _ (by linarith)⟩
  · exact ⟨key _ (by linarith), key _ (by linarith)⟩
  · exact ⟨key _ (by linarith), key _ (by linarith)⟩

/-- Witness for C7 at the identity calibration of q1 q2 q3. -/
theorem C7_calibration_roundtrip_witness :
    det3 q1 q2 q3 ≠ 0 ∧
    (|transform_lat mId q2.x q2.y - q2.lat| ≤ 1 / 1000000 ∧
     |transform_lon mId q2.x q2.y - q2.lon| ≤ 1 / 1000000) := by
  have hD : det3 q1 q2 q3 ≠ 0 := by with_unfolding_all decide
  have h0 : SSE [q1, q2, q3] mId = 0 := by with_unfolding_all decide
  have hm : IsLstsqSol [q1, q2, q3] mId := by
    intro m'
    rw [h0]
    exact SSE_nonneg [q1, q2, q3] m'
  exact ⟨hD, C7_calibration_roundtrip q1 q2 q3 mId hD hm q2 (by simp)⟩
